import Mathlib

set_option maxRecDepth 4000

/-!
Shallow embedding of the gameboy emulator core (src/util.rs, src/cartridge.rs,
src/mmu.rs, src/cpu.rs) and proofs about its specification claims.

Modelling conventions:
* Machine integers (u8 / u16) are `Nat`; truncating casts (`as u8`) are `% 256`.
* A Rust panic site (array index out of bounds, `Option::unwrap` on `None`,
  `unimplemented!`, and checked-arithmetic overflow of the plain `+` / `-`
  operators, which abort under the debug profile the repository builds with)
  is modelled as an `Except.error` carrying a `RunError` value that records the
  data interpolated into the panic message.
* `overflowing_add` / `overflowing_sub` are modelled as wrapping arithmetic.
* Fixed-size arrays are total functions `Nat → Nat` together with an explicit
  bounds check (`arrGet` / `arrSet`) at every indexing site, mirroring the
  bounds check Rust performs on `buf[i]`.
* `u16` parameters are only ever applied to values below 0x10000 by the
  theorems here; the final arm of the MMU decode corresponds to the last arm
  (address 0xFFFF) of the exhaustive Rust `match` over `u16`.
-/

namespace Gameboy

/-- Data carried by the panic / error sites of the source. Each constructor is
one failure site; its fields are exactly the values interpolated into the
corresponding panic message. -/
inductive RunError where
  /-- `unimplemented!("command not implemented 0x{:x}", b)` — primary opcode
  dispatch fallback; the message interpolates only the opcode byte. -/
  | unimplementedCommand (b : Nat)
  /-- `unimplemented!("0xCB prefixed command not implemented 0x{:x}", b)` —
  secondary dispatch fallback; the message interpolates only the byte. -/
  | unimplementedCbCommand (b : Nat)
  /-- a bare `unimplemented!()` with no message (opcode 0xCE, MMU external-RAM
  write arm, non-RomOnly cartridge variants). -/
  | unimplementedPlain
  /-- array index out of bounds. -/
  | indexOutOfBounds
  /-- `Option::unwrap` called on `None`. -/
  | unwrapNone
  /-- overflow of a checked (plain `+` / `-`) machine-integer operation. -/
  | arithmeticOverflow
  deriving DecidableEq, Repr

/-- Checked `u16` addition (`a + b` on `u16`): aborts on overflow. -/
def u16add (a b : Nat) : Except RunError Nat :=
  if a + b < 0x10000 then .ok (a + b) else .error .arithmeticOverflow

/-- Checked `u16` subtraction (`a - b` on `u16`): aborts on underflow. -/
def u16sub (a b : Nat) : Except RunError Nat :=
  if b ≤ a then .ok (a - b) else .error .arithmeticOverflow

/-- Checked `u8` addition (`a + b` on `u8`): aborts on overflow. -/
def u8add (a b : Nat) : Except RunError Nat :=
  if a + b < 0x100 then .ok (a + b) else .error .arithmeticOverflow

/-- `u16::overflowing_add(a, b).0`: wraps modulo 2^16. -/
def overflowing_add16 (a b : Nat) : Nat := (a + b) % 0x10000

/-- `u16::overflowing_sub(a, b).0`: wraps modulo 2^16. -/
def overflowing_sub16 (a b : Nat) : Nat :=
  (a % 0x10000 + 0x10000 - b % 0x10000) % 0x10000

/-- `u8::overflowing_add(a, b).0`: wraps modulo 2^8. -/
def overflowing_add8 (a b : Nat) : Nat := (a + b) % 0x100

/-- `u8::overflowing_sub(a, b).0`: wraps modulo 2^8. -/
def overflowing_sub8 (a b : Nat) : Nat :=
  (a % 0x100 + 0x100 - b % 0x100) % 0x100

/-- Read `f[i]` from an array of `size` elements: Rust panics when the index
is out of bounds. -/
def arrGet (size : Nat) (f : Nat → Nat) (i : Nat) : Except RunError Nat :=
  if i < size then .ok (f i) else .error .indexOutOfBounds

/-- Write `f[i] = v` in an array of `size` elements: Rust panics when the
index is out of bounds. -/
def arrSet (size : Nat) (f : Nat → Nat) (i v : Nat) :
    Except RunError (Nat → Nat) :=
  if i < size then .ok (fun j => if j = i then v else f j)
  else .error .indexOutOfBounds

/-! ## src/util.rs -/

/-- `unpack_bytes_from_double`: extract `(upper, lower)` bytes of a 16-bit
word. `lower = double as u8`, `upper = (double >> 8) as u8`. -/
def unpack_bytes_from_double (double : Nat) : Nat × Nat :=
  ((double >>> 8) % 0x100, double % 0x100)

/-- `pack_bytes_into_double`: `((upper as u16) << 8) | lower as u16`.
The `% 0x100` on each argument models the `u8` parameter type. -/
def pack_bytes_into_double (upper lower : Nat) : Nat :=
  ((upper % 0x100) <<< 8) ||| (lower % 0x100)

/-- `set_lower(target, value) = (target & 0xFF00) | value as u16`. -/
def set_lower (target value : Nat) : Nat :=
  (target &&& 0xFF00) ||| (value % 0x100)

/-- `set_upper(target, value) = (target & 0x00FF) | (value as u16) << 8`. -/
def set_upper (target value : Nat) : Nat :=
  (target &&& 0x00FF) ||| ((value % 0x100) <<< 8)

/-- `set_bit(target, n, value) = target | (1 << n)`. The `value` parameter is
unused in the source. -/
def set_bit (target : Nat) (n : Nat) (_value : Bool) : Nat :=
  target ||| (1 <<< n)

/-- `get_bit(target, n) = (target & (1 << n)) != 0`. -/
def get_bit (target : Nat) (n : Nat) : Bool :=
  (target &&& (1 <<< n)) != 0

/-! ## src/cartridge.rs -/

/-- The `Cartridge` enum. Only `RomOnly` is functional; the other variants are
declared extension points. -/
inductive Cartridge where
  | RomOnly (inner : Nat → Nat)
  | MBC1
  | MBC2
  | MBC3
  | MBC5
  | Rumble
  | HuC1

/-- `Cartridge::ROM_ONLY_SIZE = 0xFFFF`. -/
def Cartridge.ROM_ONLY_SIZE : Nat := 0xFFFF

/-- `Cartridge::NO_RAM_READ_VALUE = 0xFF`. -/
def Cartridge.NO_RAM_READ_VALUE : Nat := 0xFF

/-- `Cartridge::maybe_from_bytes`: accepts images of at most `ROM_ONLY_SIZE`
bytes, copying them into a zero-initialised buffer of exactly that size. -/
def Cartridge.maybe_from_bytes (bytes : List Nat) : Option Cartridge :=
  if bytes.length ≤ Cartridge.ROM_ONLY_SIZE then
    some (.RomOnly (fun i => if i < bytes.length then bytes.getD i 0 else 0))
  else
    none

/-- `Cartridge::read_ram`: returns the "no RAM present" sentinel for every
variant. -/
def Cartridge.read_ram (_self : Cartridge) (_address : Nat) : Nat :=
  Cartridge.NO_RAM_READ_VALUE

/-- `impl Memory for Cartridge — read`: `RomOnly` indexes its buffer (bounds
checked); every other variant is `unimplemented!()`. -/
def Cartridge.read (self : Cartridge) (address : Nat) : Except RunError Nat :=
  match self with
  | .RomOnly inner => arrGet Cartridge.ROM_ONLY_SIZE inner address
  | _ => .error .unimplementedPlain

/-! ## src/mmu.rs -/

/-- The MMU: owner of all fixed backing stores plus an optional cartridge. -/
structure MMU where
  cartridge : Option Cartridge
  bios : Nat → Nat
  vram : Nat → Nat
  oam : Nat → Nat
  iom : Nat → Nat
  ram : Nat → Nat
  sram : Nat → Nat
  hram : Nat → Nat
  ie : Nat

/-- `MMU::default()`: no cartridge, all stores zeroed. -/
def MMU.init : MMU :=
  { cartridge := none
    bios := fun _ => 0
    vram := fun _ => 0
    oam := fun _ => 0
    iom := fun _ => 0
    ram := fun _ => 0
    sram := fun _ => 0
    hram := fun _ => 0
    ie := 0 }

/-- `MMU::bios_enabled(): self.read(BIOS_DISABLE_REGISTER_ADDRESS) == 0`.
Address 0xFF50 always resolves through the I/O arm of `read` to
`iom[0xFF50 - 0xFF00]`; that single recursive call is unfolded here (the
theorem `MMU.read_ff50` below checks the unfolding against `read`). -/
def MMU.bios_enabled (m : MMU) : Bool :=
  m.iom (0xFF50 - 0xFF00) == 0

/-- `impl Memory for MMU — read`: the address decode table, arms in source
order. The trailing branch is the final `0xFFFF` (interrupt-enable) arm of the
exhaustive `u16` match. -/
def MMU.read (m : MMU) (address : Nat) : Except RunError Nat :=
  -- 0000-00FF bios (while enabled)
  if address ≤ 0xFF ∧ m.bios_enabled = true then
    arrGet 0x100 m.bios (address - 0x0)
  -- 0000-7FFF cartridge ROM
  else if address ≤ 0x7FFF then
    match m.cartridge with
    | some x => x.read address
    | none => .error .unwrapNone
  -- 8000-9FFF video RAM
  else if 0x8000 ≤ address ∧ address ≤ 0x9FFF then
    arrGet 0x2000 m.vram (address - 0x8000)
  -- A000-BFFF external RAM (delegated to the cartridge)
  else if 0xA000 ≤ address ∧ address ≤ 0xBFFF then
    match m.cartridge with
    | some x => .ok (x.read_ram (address - 0xA000))
    | none => .error .unwrapNone
  -- C000-CFFF work RAM bank 0
  else if 0xC000 ≤ address ∧ address ≤ 0xCFFF then
    arrGet 0x1000 m.ram (address - 0xC000)
  -- D000-DFFF work RAM bank 1
  else if 0xD000 ≤ address ∧ address ≤ 0xDFFF then
    arrGet 0x1000 m.sram (address - 0xD000)
  -- E000-FDFF echo of work RAM
  else if 0xE000 ≤ address ∧ address ≤ 0xFDFF then
    arrGet 0x1000 m.ram (address - 0xE000)
  -- FE00-FE9F sprite attribute table
  else if 0xFE00 ≤ address ∧ address ≤ 0xFE9F then
    arrGet 0xA0 m.oam (address - 0xFE00)
  -- FEA0-FEFF not usable
  else if 0xFEA0 ≤ address ∧ address ≤ 0xFEFF then
    .ok 0xFF
  -- FF00-FF7F I/O ports
  else if 0xFF00 ≤ address ∧ address ≤ 0xFF7F then
    arrGet 0x80 m.iom (address - 0xFF00)
  -- FF80-FFFE high RAM
  else if 0xFF80 ≤ address ∧ address ≤ 0xFFFE then
    arrGet 0x7F m.hram (address - 0xFF80)
  -- FFFF interrupt enable register
  else
    .ok m.ie

/-- `impl Memory for MMU — write`: arms in source order; the ROM, unusable and
bios arms are no-ops, the external-RAM arm is `unimplemented!()`. -/
def MMU.write (m : MMU) (address value : Nat) : Except RunError MMU :=
  if address ≤ 0xFF ∧ m.bios_enabled = true then
    .ok m
  else if address ≤ 0x7FFF then
    .ok m
  else if 0x8000 ≤ address ∧ address ≤ 0x9FFF then
    (arrSet 0x2000 m.vram (address - 0x8000) value).map
      (fun f => { m with vram := f })
  else if 0xA000 ≤ address ∧ address ≤ 0xBFFF then
    .error .unimplementedPlain
  else if 0xC000 ≤ address ∧ address ≤ 0xCFFF then
    (arrSet 0x1000 m.ram (address - 0xC000) value).map
      (fun f => { m with ram := f })
  else if 0xD000 ≤ address ∧ address ≤ 0xDFFF then
    (arrSet 0x1000 m.sram (address - 0xD000) value).map
      (fun f => { m with sram := f })
  else if 0xE000 ≤ address ∧ address ≤ 0xFDFF then
    (arrSet 0x1000 m.ram (address - 0xE000) value).map
      (fun f => { m with ram := f })
  else if 0xFE00 ≤ address ∧ address ≤ 0xFE9F then
    (arrSet 0xA0 m.oam (address - 0xFE00) value).map
      (fun f => { m with oam := f })
  else if 0xFEA0 ≤ address ∧ address ≤ 0xFEFF then
    .ok m
  else if 0xFF00 ≤ address ∧ address ≤ 0xFF7F then
    (arrSet 0x80 m.iom (address - 0xFF00) value).map
      (fun f => { m with iom := f })
  else if 0xFF80 ≤ address ∧ address ≤ 0xFFFE then
    (arrSet 0x7F m.hram (address - 0xFF80) value).map
      (fun f => { m with hram := f })
  else
    .ok { m with ie := value }

/-- `Memory::read_double` default method:
`pack_bytes_into_double(self.read(address), self.read(address + 1))`. -/
def MMU.read_double (m : MMU) (address : Nat) : Except RunError Nat := do
  let upper ← m.read address
  let a1 ← u16add address 1
  let lower ← m.read a1
  .ok (pack_bytes_into_double upper lower)

/-- `Memory::write_double` default method: unpack, write upper at `address`,
lower at `address + 1`. -/
def MMU.write_double (m : MMU) (address value : Nat) :
    Except RunError MMU := do
  let upper := (unpack_bytes_from_double value).fst
  let lower := (unpack_bytes_from_double value).snd
  let m1 ← m.write address upper
  let a1 ← u16add address 1
  m1.write a1 lower

/-! ## src/cpu.rs — register file and accessors -/

/-- The CPU register file: four 16-bit pairs plus `sp` and `pc`, all
zero-initialised by `Default`. -/
structure CPU where
  af : Nat
  bc : Nat
  de : Nat
  hl : Nat
  sp : Nat
  pc : Nat
  deriving DecidableEq, Repr

/-- `CPU::default()`: all registers zero. -/
def CPU.init : CPU := { af := 0, bc := 0, de := 0, hl := 0, sp := 0, pc := 0 }

/-- Flag bit positions in the `f` (low) byte of `af`. -/
def CPU.F_REGISTER_Z_FLAG_BIT_N : Nat := 7

/-- N flag bit position. -/
def CPU.F_REGISTER_N_FLAG_BIT_N : Nat := 6

/-- H flag bit position. -/
def CPU.F_REGISTER_H_FLAG_BIT_N : Nat := 5

/-- C flag bit position. -/
def CPU.F_REGISTER_C_FLAG_BIT_N : Nat := 4

/-- `CPU::CARRY_BIT = 0`. -/
def CPU.CARRY_BIT : Nat := 0

/-- `CPU::BORROW_BIT = 0`. -/
def CPU.BORROW_BIT : Nat := 0

/-- `CPU::HALF_CARRY_BIT = 8`. -/
def CPU.HALF_CARRY_BIT : Nat := 8

/-- `CPU::LOWER_HALF_CARRY_BIT = 3`. -/
def CPU.LOWER_HALF_CARRY_BIT : Nat := 3

/-- `CPU::UPPER_HALF_CARRY_BIT = LOWER_HALF_CARRY_BIT + 8 = 11`. -/
def CPU.UPPER_HALF_CARRY_BIT : Nat := CPU.LOWER_HALF_CARRY_BIT + 8

/-- `CPU::HALF_BORROW_BIT = 8`. -/
def CPU.HALF_BORROW_BIT : Nat := 8

/-- `CPU::LOWER_HALF_BORROW_BIT = 4`. -/
def CPU.LOWER_HALF_BORROW_BIT : Nat := 4

/-- `CPU::UPPER_HALF_BORROW_BIT = LOWER_HALF_BORROW_BIT + 8 = 12`. -/
def CPU.UPPER_HALF_BORROW_BIT : Nat := CPU.LOWER_HALF_BORROW_BIT + 8

/-- `CPU::LOWER_BORROW_BIT = 0`. -/
def CPU.LOWER_BORROW_BIT : Nat := 0

/-- `CPU::UPPER_BORROW_BIT = LOWER_BORROW_BIT + 8 = 8`. -/
def CPU.UPPER_BORROW_BIT : Nat := CPU.LOWER_BORROW_BIT + 8

/-- `CPU::a`: upper byte of `af`. -/
def CPU.a (self : CPU) : Nat := (unpack_bytes_from_double self.af).fst

/-- `CPU::set_a`. -/
def CPU.set_a (self : CPU) (value : Nat) : CPU :=
  { self with af := set_upper self.af value }

/-- `CPU::b`: upper byte of `bc`. -/
def CPU.b (self : CPU) : Nat := (unpack_bytes_from_double self.bc).fst

/-- `CPU::set_b`. -/
def CPU.set_b (self : CPU) (value : Nat) : CPU :=
  { self with bc := set_upper self.bc value }

/-- `CPU::c`: lower byte of `bc`. -/
def CPU.c (self : CPU) : Nat := (unpack_bytes_from_double self.bc).snd

/-- `CPU::set_c`. -/
def CPU.set_c (self : CPU) (value : Nat) : CPU :=
  { self with bc := set_lower self.bc value }

/-- `CPU::d`: upper byte of `de`. -/
def CPU.d (self : CPU) : Nat := (unpack_bytes_from_double self.de).fst

/-- `CPU::set_d`. -/
def CPU.set_d (self : CPU) (value : Nat) : CPU :=
  { self with de := set_upper self.de value }

/-- `CPU::e`: lower byte of `de`. -/
def CPU.e (self : CPU) : Nat := (unpack_bytes_from_double self.de).snd

/-- `CPU::set_e`. -/
def CPU.set_e (self : CPU) (value : Nat) : CPU :=
  { self with de := set_lower self.de value }

/-- `CPU::h`: upper byte of `hl`. -/
def CPU.h (self : CPU) : Nat := (unpack_bytes_from_double self.hl).fst

/-- `CPU::set_h`. -/
def CPU.set_h (self : CPU) (value : Nat) : CPU :=
  { self with hl := set_upper self.hl value }

/-- `CPU::l`: lower byte of `hl`. -/
def CPU.l (self : CPU) : Nat := (unpack_bytes_from_double self.hl).snd

/-- `CPU::set_l`. -/
def CPU.set_l (self : CPU) (value : Nat) : CPU :=
  { self with hl := set_lower self.hl value }

/-- `CPU::get_f_bit_n`: test bit `n` of the `f` (low) byte of `af`. -/
def CPU.get_f_bit_n (self : CPU) (n : Nat) : Bool :=
  ((unpack_bytes_from_double self.af).snd &&& (1 <<< n)) != 0

/-- `CPU::set_f_bit_n`: `af = set_bit(af, n, value)`. -/
def CPU.set_f_bit_n (self : CPU) (n : Nat) (value : Bool) : CPU :=
  { self with af := set_bit self.af n value }

/-- `CPU::set_z_flag`. -/
def CPU.set_z_flag (self : CPU) (value : Bool) : CPU :=
  self.set_f_bit_n CPU.F_REGISTER_Z_FLAG_BIT_N value

/-- `CPU::set_n_flag`. -/
def CPU.set_n_flag (self : CPU) (value : Bool) : CPU :=
  self.set_f_bit_n CPU.F_REGISTER_N_FLAG_BIT_N value

/-- `CPU::set_h_flag`. -/
def CPU.set_h_flag (self : CPU) (value : Bool) : CPU :=
  self.set_f_bit_n CPU.F_REGISTER_H_FLAG_BIT_N value

/-- `CPU::set_c_flag`. -/
def CPU.set_c_flag (self : CPU) (value : Bool) : CPU :=
  self.set_f_bit_n CPU.F_REGISTER_C_FLAG_BIT_N value

/-- `CPU::get_z_flag`. -/
def CPU.get_z_flag (self : CPU) : Bool :=
  self.get_f_bit_n CPU.F_REGISTER_Z_FLAG_BIT_N

/-- `CPU::get_n_flag`. -/
def CPU.get_n_flag (self : CPU) : Bool :=
  self.get_f_bit_n CPU.F_REGISTER_N_FLAG_BIT_N

/-- `CPU::n_flag`. -/
def CPU.n_flag (self : CPU) : Bool :=
  self.get_f_bit_n CPU.F_REGISTER_N_FLAG_BIT_N

/-- `CPU::h_flag`. -/
def CPU.h_flag (self : CPU) : Bool :=
  self.get_f_bit_n CPU.F_REGISTER_H_FLAG_BIT_N

/-- `CPU::c_flag`. -/
def CPU.c_flag (self : CPU) : Bool :=
  self.get_f_bit_n CPU.F_REGISTER_C_FLAG_BIT_N

/-- `CPU::set_flags`: apply each requested flag in order Z, N, H, C through
`set_f_bit_n` (and hence through `set_bit`). -/
def CPU.set_flags (self : CPU) (z n h c : Option Bool) : CPU :=
  let s1 := match z with
    | some z => self.set_z_flag z
    | none => self
  let s2 := match n with
    | some n => s1.set_n_flag n
    | none => s1
  let s3 := match h with
    | some h => s2.set_h_flag h
    | none => s2
  match c with
  | some c => s3.set_c_flag c
  | none => s3

/-! ## src/cpu.rs — fetch/decode/execute

`CPU::exec` returns `(cpu', mmu', n_cycles)`; the dispatch arms appear in the
source order. Each `self.pc += k` is a checked `u16` addition; each
`overflowing_add/sub` wraps; each `i8` negation of `-128` aborts. -/

/-- `CPU::exec(opcode, mmu)`: one instruction's full effect. -/
def CPU.exec (cpu : CPU) (opcode : Nat) (mmu : MMU) :
    Except RunError (CPU × MMU × Nat) :=
  -- NOP 1 4
  if opcode = 0x00 then do
    let pc1 ← u16add cpu.pc 1
    .ok ({ cpu with pc := pc1 }, mmu, 4)
  -- LD BC,d16 3 12
  else if opcode = 0x01 then do
    let a1 ← u16add cpu.pc 1
    let v ← mmu.read_double a1
    let pc1 ← u16add cpu.pc 3
    .ok ({ cpu with bc := v, pc := pc1 }, mmu, 12)
  -- LD (BC),A 1 8
  else if opcode = 0x02 then do
    let m1 ← mmu.write cpu.bc cpu.a
    let pc1 ← u16add cpu.pc 1
    .ok ({ cpu with pc := pc1 }, m1, 8)
  -- INC BC 1 8
  else if opcode = 0x03 then do
    let c1 := { cpu with bc := overflowing_add16 cpu.bc 1 }
    let pc1 ← u16add c1.pc 1
    .ok ({ c1 with pc := pc1 }, mmu, 8)
  -- DEC B 1 4 — Z 1 H -
  else if opcode = 0x05 then do
    let c1 := cpu.set_b (overflowing_sub8 cpu.b 1)
    let c2 := c1.set_flags (some (c1.b == 0)) (some true)
      (some (get_bit c1.bc CPU.HALF_BORROW_BIT)) none
    let pc1 ← u16add c2.pc 1
    .ok ({ c2 with pc := pc1 }, mmu, 4)
  -- LD (a16),SP 3 20
  else if opcode = 0x08 then do
    let a1 ← u16add cpu.pc 1
    let target ← mmu.read_double a1
    let m1 ← mmu.write_double target cpu.sp
    let pc1 ← u16add cpu.pc 3
    .ok ({ cpu with pc := pc1 }, m1, 20)
  -- LD A,(BC) 1 8
  else if opcode = 0x0A then do
    let v ← mmu.read cpu.bc
    let c1 := cpu.set_a v
    let pc1 ← u16add c1.pc 1
    .ok ({ c1 with pc := pc1 }, mmu, 8)
  -- INC C 1 4 — Z 0 H -
  else if opcode = 0x0C then do
    let c1 := cpu.set_c (overflowing_add8 cpu.c 1)
    let c2 := c1.set_flags (some (c1.c == 0)) (some false)
      (some (get_bit c1.bc CPU.LOWER_HALF_CARRY_BIT)) none
    let pc1 ← u16add c2.pc 1
    .ok ({ c2 with pc := pc1 }, mmu, 4)
  -- LD C,d8 2 8
  else if opcode = 0x0E then do
    let a1 ← u16add cpu.pc 1
    let v ← mmu.read a1
    let c1 := cpu.set_c v
    let pc1 ← u16add c1.pc 2
    .ok ({ c1 with pc := pc1 }, mmu, 8)
  -- LD DE,d16 3 12
  else if opcode = 0x11 then do
    let a1 ← u16add cpu.pc 1
    let v ← mmu.read_double a1
    let pc1 ← u16add cpu.pc 3
    .ok ({ cpu with de := v, pc := pc1 }, mmu, 12)
  -- LD (DE),A 1 8
  else if opcode = 0x12 then do
    let m1 ← mmu.write cpu.de cpu.a
    let pc1 ← u16add cpu.pc 1
    .ok ({ cpu with pc := pc1 }, m1, 8)
  -- DEC D 1 4 — Z 1 H -
  else if opcode = 0x15 then do
    let c1 := cpu.set_d (overflowing_sub8 cpu.d 1)
    let c2 := c1.set_flags (some (c1.d == 0)) (some true)
      (some (get_bit c1.de CPU.UPPER_HALF_BORROW_BIT)) none
    let pc1 ← u16add c2.pc 1
    .ok ({ c2 with pc := pc1 }, mmu, 4)
  -- LD D,d8 2 8
  else if opcode = 0x16 then do
    let a1 ← u16add cpu.pc 1
    let v ← mmu.read a1
    let c1 := cpu.set_d v
    let pc1 ← u16add c1.pc 2
    .ok ({ c1 with pc := pc1 }, mmu, 8)
  -- JR r8 2 12 — offset read as i8, then `self.pc += 2` on the jumped pc
  else if opcode = 0x18 then do
    let a1 ← u16add cpu.pc 1
    let offset ← mmu.read a1
    let pcJ ←
      if 0x80 ≤ offset then
        if offset = 0x80 then .error .arithmeticOverflow
        else .ok (overflowing_sub16 cpu.pc (0x100 - offset))
      else .ok (overflowing_add16 cpu.pc offset)
    let pc1 ← u16add pcJ 2
    .ok ({ cpu with pc := pc1 }, mmu, 12)
  -- ADD HL,DE 1 8 — flags only; hl is not actually modified in the source
  else if opcode = 0x19 then do
    let c1 := cpu.set_flags none (some false)
      (some (get_bit cpu.hl CPU.HALF_CARRY_BIT))
      (some (get_bit cpu.hl CPU.CARRY_BIT))
    let pc1 ← u16add c1.pc 1
    .ok ({ c1 with pc := pc1 }, mmu, 8)
  -- INC E 1 4 — Z 0 H - ; `self.e() + 1` is a checked u8 addition
  else if opcode = 0x1C then do
    let e1 ← u8add cpu.e 1
    let c1 := cpu.set_e e1
    let c2 := c1.set_flags (some (c1.e == 0)) (some false)
      (some (get_bit c1.de CPU.LOWER_HALF_CARRY_BIT)) none
    let pc1 ← u16add c2.pc 1
    .ok ({ c2 with pc := pc1 }, mmu, 4)
  -- DEC E 1 4 — Z 1 H - ; pc incremented before the flag update
  else if opcode = 0x1D then do
    let c1 := cpu.set_e (overflowing_sub8 cpu.e 1)
    let pc1 ← u16add c1.pc 1
    let c2 := { c1 with pc := pc1 }
    let c3 := c2.set_flags (some (c2.e == 0)) (some true)
      (some (get_bit c2.de CPU.LOWER_HALF_BORROW_BIT)) none
    .ok (c3, mmu, 4)
  -- JR NZ,r8 2 12/8
  else if opcode = 0x20 then do
    let a1 ← u16add cpu.pc 1
    let offset ← mmu.read a1
    if cpu.get_z_flag = false then do
      let pcJ ←
        if 0x80 ≤ offset then
          if offset = 0x80 then .error .arithmeticOverflow
          else .ok (overflowing_sub16 cpu.pc (0x100 - offset))
        else .ok (overflowing_add16 cpu.pc offset)
      .ok ({ cpu with pc := pcJ }, mmu, 12)
    else do
      let pc1 ← u16add cpu.pc 2
      .ok ({ cpu with pc := pc1 }, mmu, 8)
  -- LD HL,d16 3 12
  else if opcode = 0x21 then do
    let a1 ← u16add cpu.pc 1
    let v ← mmu.read_double a1
    let pc1 ← u16add cpu.pc 3
    .ok ({ cpu with hl := v, pc := pc1 }, mmu, 12)
  -- LD (HL+),A 1 8
  else if opcode = 0x22 then do
    let m1 ← mmu.write cpu.hl cpu.a
    let c1 := { cpu with hl := overflowing_add16 cpu.hl 1 }
    let pc1 ← u16add c1.pc 1
    .ok ({ c1 with pc := pc1 }, m1, 8)
  -- INC HL 1 8 — `self.hl += 1` is a checked u16 addition
  else if opcode = 0x23 then do
    let hl1 ← u16add cpu.hl 1
    let pc1 ← u16add cpu.pc 1
    .ok ({ cpu with hl := hl1, pc := pc1 }, mmu, 8)
  -- DEC H 1 4 — Z 1 H -
  else if opcode = 0x25 then do
    let c1 := cpu.set_h (overflowing_sub8 cpu.h 1)
    let c2 := c1.set_flags (some (c1.h == 0)) (some true)
      (some (get_bit c1.hl CPU.UPPER_HALF_BORROW_BIT)) none
    let pc1 ← u16add c2.pc 1
    .ok ({ c2 with pc := pc1 }, mmu, 4)
  -- INC L 1 4 — Z 0 H - ; `self.l() + 1` is a checked u8 addition
  else if opcode = 0x2C then do
    let l1 ← u8add cpu.l 1
    let c1 := cpu.set_l l1
    let c2 := c1.set_flags (some (c1.l == 0)) (some false)
      (some (get_bit c1.l CPU.LOWER_HALF_CARRY_BIT)) none
    let pc1 ← u16add c2.pc 1
    .ok ({ c2 with pc := pc1 }, mmu, 4)
  -- DEC L 1 4 — no flag update in the source
  else if opcode = 0x2D then do
    let c1 := cpu.set_l (overflowing_sub8 cpu.l 1)
    let pc1 ← u16add c1.pc 1
    .ok ({ c1 with pc := pc1 }, mmu, 4)
  -- LD L,d8 2 8
  else if opcode = 0x2E then do
    let a1 ← u16add cpu.pc 1
    let v ← mmu.read a1
    let c1 := cpu.set_l v
    let pc1 ← u16add c1.pc 2
    .ok ({ c1 with pc := pc1 }, mmu, 8)
  -- CPL 1 4 — - 1 1 -
  else if opcode = 0x2F then do
    let c1 := cpu.set_a (cpu.a ^^^ 0xFF)
    let c2 := c1.set_flags none (some true) (some true) none
    let pc1 ← u16add c2.pc 1
    .ok ({ c2 with pc := pc1 }, mmu, 4)
  -- LD SP,d16 3 12
  else if opcode = 0x31 then do
    let a1 ← u16add cpu.pc 1
    let v ← mmu.read_double a1
    let pc1 ← u16add cpu.pc 3
    .ok ({ cpu with sp := v, pc := pc1 }, mmu, 12)
  -- LD (HL-),A 1 8 — `self.hl -= 1` is a checked u16 subtraction
  else if opcode = 0x32 then do
    let m1 ← mmu.write cpu.hl cpu.a
    let hl1 ← u16sub cpu.hl 1
    let pc1 ← u16add cpu.pc 1
    .ok ({ cpu with hl := hl1, pc := pc1 }, m1, 8)
  -- LD A,d8 2 8
  else if opcode = 0x3E then do
    let a1 ← u16add cpu.pc 1
    let v ← mmu.read a1
    let c1 := cpu.set_a v
    let pc1 ← u16add c1.pc 2
    .ok ({ c1 with pc := pc1 }, mmu, 8)
  -- LD B,A 1 4
  else if opcode = 0x47 then do
    let c1 := cpu.set_b cpu.a
    let pc1 ← u16add c1.pc 1
    .ok ({ c1 with pc := pc1 }, mmu, 4)
  -- LD C,B 1 4
  else if opcode = 0x48 then do
    let c1 := cpu.set_c cpu.b
    let pc1 ← u16add c1.pc 1
    .ok ({ c1 with pc := pc1 }, mmu, 4)
  -- LD C,C 1 4
  else if opcode = 0x49 then do
    let c1 := cpu.set_c cpu.c
    let pc1 ← u16add c1.pc 1
    .ok ({ c1 with pc := pc1 }, mmu, 4)
  -- LD C,D 1 4
  else if opcode = 0x4A then do
    let c1 := cpu.set_c cpu.d
    let pc1 ← u16add c1.pc 1
    .ok ({ c1 with pc := pc1 }, mmu, 4)
  -- LD C,E 1 4
  else if opcode = 0x4B then do
    let c1 := cpu.set_c cpu.e
    let pc1 ← u16add c1.pc 1
    .ok ({ c1 with pc := pc1 }, mmu, 4)
  -- CALL NZ,a16 3 24/12 — as written: taken on Z set, no push, pc += 3 after
  else if opcode = 0x4C then do
    if cpu.get_z_flag = true then do
      let a1 ← u16add cpu.pc 1
      let address ← mmu.read_double a1
      let pc1 ← u16add address 3
      .ok ({ cpu with pc := pc1 }, mmu, 24)
    else do
      let pc1 ← u16add cpu.pc 3
      .ok ({ cpu with pc := pc1 }, mmu, 12)
  -- LD C,L 1 4
  else if opcode = 0x4D then do
    let c1 := cpu.set_c cpu.l
    let pc1 ← u16add c1.pc 1
    .ok ({ c1 with pc := pc1 }, mmu, 4)
  -- LD C,(HL) 1 8
  else if opcode = 0x4E then do
    let v ← mmu.read cpu.hl
    let c1 := cpu.set_c v
    let pc1 ← u16add c1.pc 1
    .ok ({ c1 with pc := pc1 }, mmu, 8)
  -- LD C,A 1 4
  else if opcode = 0x4F then do
    let c1 := cpu.set_c cpu.a
    let pc1 ← u16add c1.pc 1
    .ok ({ c1 with pc := pc1 }, mmu, 4)
  -- LD D,B 1 4
  else if opcode = 0x50 then do
    let c1 := cpu.set_d cpu.b
    let pc1 ← u16add c1.pc 1
    .ok ({ c1 with pc := pc1 }, mmu, 4)
  -- LD D,C 1 4
  else if opcode = 0x51 then do
    let c1 := cpu.set_d cpu.c
    let pc1 ← u16add c1.pc 1
    .ok ({ c1 with pc := pc1 }, mmu, 4)
  -- LD D,D 1 4
  else if opcode = 0x52 then do
    let c1 := cpu.set_d cpu.d
    let pc1 ← u16add c1.pc 1
    .ok ({ c1 with pc := pc1 }, mmu, 4)
  -- LD D,E 1 4
  else if opcode = 0x53 then do
    let c1 := cpu.set_d cpu.e
    let pc1 ← u16add c1.pc 1
    .ok ({ c1 with pc := pc1 }, mmu, 4)
  -- LD D,H 1 4
  else if opcode = 0x54 then do
    let c1 := cpu.set_d cpu.h
    let pc1 ← u16add c1.pc 1
    .ok ({ c1 with pc := pc1 }, mmu, 4)
  -- LD D,L 1 4
  else if opcode = 0x55 then do
    let c1 := cpu.set_d cpu.l
    let pc1 ← u16add c1.pc 1
    .ok ({ c1 with pc := pc1 }, mmu, 4)
  -- LD D,(HL) 1 8
  else if opcode = 0x56 then do
    let v ← mmu.read cpu.hl
    let c1 := cpu.set_d v
    let pc1 ← u16add c1.pc 1
    .ok ({ c1 with pc := pc1 }, mmu, 8)
  -- LD D,A 1 4
  else if opcode = 0x57 then do
    let c1 := cpu.set_d cpu.a
    let pc1 ← u16add c1.pc 1
    .ok ({ c1 with pc := pc1 }, mmu, 4)
  -- LD E,B 1 4
  else if opcode = 0x58 then do
    let c1 := cpu.set_e cpu.b
    let pc1 ← u16add c1.pc 1
    .ok ({ c1 with pc := pc1 }, mmu, 4)
  -- LD E,C 1 4
  else if opcode = 0x59 then do
    let c1 := cpu.set_e cpu.c
    let pc1 ← u16add c1.pc 1
    .ok ({ c1 with pc := pc1 }, mmu, 4)
  -- LD E,D 1 4
  else if opcode = 0x5A then do
    let c1 := cpu.set_e cpu.d
    let pc1 ← u16add c1.pc 1
    .ok ({ c1 with pc := pc1 }, mmu, 4)
  -- LD E,E 1 4
  else if opcode = 0x5B then do
    let c1 := cpu.set_e cpu.e
    let pc1 ← u16add c1.pc 1
    .ok ({ c1 with pc := pc1 }, mmu, 4)
  -- LD E,H 1 4
  else if opcode = 0x5C then do
    let c1 := cpu.set_e cpu.h
    let pc1 ← u16add c1.pc 1
    .ok ({ c1 with pc := pc1 }, mmu, 4)
  -- LD H,B 1 4
  else if opcode = 0x60 then do
    let c1 := cpu.set_h cpu.b
    let pc1 ← u16add c1.pc 1
    .ok ({ c1 with pc := pc1 }, mmu, 4)
  -- LD H,(HL) 1 8
  else if opcode = 0x66 then do
    let v ← mmu.read cpu.hl
    let c1 := cpu.set_h v
    let pc1 ← u16add c1.pc 1
    .ok ({ c1 with pc := pc1 }, mmu, 8)
  -- LD L,E 1 4
  else if opcode = 0x6B then do
    let c1 := cpu.set_l cpu.e
    let pc1 ← u16add c1.pc 1
    .ok ({ c1 with pc := pc1 }, mmu, 4)
  -- LD L,H 1 4
  else if opcode = 0x6C then do
    let c1 := cpu.set_l cpu.h
    let pc1 ← u16add c1.pc 1
    .ok ({ c1 with pc := pc1 }, mmu, 4)
  -- LD L,(HL) 1 8
  else if opcode = 0x6E then do
    let v ← mmu.read cpu.hl
    let c1 := cpu.set_l v
    let pc1 ← u16add c1.pc 1
    .ok ({ c1 with pc := pc1 }, mmu, 8)
  -- LD L,L 1 4
  else if opcode = 0x6D then do
    let c1 := cpu.set_l cpu.l
    let pc1 ← u16add c1.pc 1
    .ok ({ c1 with pc := pc1 }, mmu, 4)
  -- LD L,A 1 4
  else if opcode = 0x6F then do
    let c1 := cpu.set_l cpu.a
    let pc1 ← u16add c1.pc 1
    .ok ({ c1 with pc := pc1 }, mmu, 4)
  -- LD (HL),C 1 8
  else if opcode = 0x71 then do
    let m1 ← mmu.write cpu.hl cpu.c
    let pc1 ← u16add cpu.pc 1
    .ok ({ cpu with pc := pc1 }, m1, 8)
  -- LD (HL),D 1 8
  else if opcode = 0x72 then do
    let m1 ← mmu.write cpu.hl cpu.d
    let pc1 ← u16add cpu.pc 1
    .ok ({ cpu with pc := pc1 }, m1, 8)
  -- LD (HL),E 1 8
  else if opcode = 0x73 then do
    let m1 ← mmu.write cpu.hl cpu.e
    let pc1 ← u16add cpu.pc 1
    .ok ({ cpu with pc := pc1 }, m1, 8)
  -- LD (HL),H 1 8
  else if opcode = 0x74 then do
    let m1 ← mmu.write cpu.hl cpu.h
    let pc1 ← u16add cpu.pc 1
    .ok ({ cpu with pc := pc1 }, m1, 8)
  -- LD (HL),L 1 8
  else if opcode = 0x75 then do
    let m1 ← mmu.write cpu.hl cpu.l
    let pc1 ← u16add cpu.pc 1
    .ok ({ cpu with pc := pc1 }, m1, 8)
  -- LD (HL),A 1 8
  else if opcode = 0x77 then do
    let m1 ← mmu.write cpu.hl cpu.a
    let pc1 ← u16add cpu.pc 1
    .ok ({ cpu with pc := pc1 }, m1, 8)
  -- LD A,B 1 4
  else if opcode = 0x78 then do
    let c1 := cpu.set_a cpu.b
    let pc1 ← u16add c1.pc 1
    .ok ({ c1 with pc := pc1 }, mmu, 4)
  -- LD A,C 1 4
  else if opcode = 0x79 then do
    let c1 := cpu.set_a cpu.c
    let pc1 ← u16add c1.pc 1
    .ok ({ c1 with pc := pc1 }, mmu, 4)
  -- LD A,D 1 4
  else if opcode = 0x7A then do
    let c1 := cpu.set_a cpu.d
    let pc1 ← u16add c1.pc 1
    .ok ({ c1 with pc := pc1 }, mmu, 4)
  -- LD A,(HL) 1 8
  else if opcode = 0x7E then do
    let v ← mmu.read cpu.hl
    let c1 := cpu.set_a v
    let pc1 ← u16add c1.pc 1
    .ok ({ c1 with pc := pc1 }, mmu, 8)
  -- LD A,A 1 4
  else if opcode = 0x7F then do
    let c1 := cpu.set_a cpu.a
    let pc1 ← u16add c1.pc 1
    .ok ({ c1 with pc := pc1 }, mmu, 4)
  -- ADD A,(HL) 1 8 — Z 0 H C, H/C from the post-write af
  else if opcode = 0x86 then do
    let v ← mmu.read cpu.hl
    let c1 := cpu.set_a (overflowing_add8 cpu.a v)
    let c2 := c1.set_flags (some (c1.a == 0)) (some false)
      (some (get_bit c1.af CPU.HALF_CARRY_BIT))
      (some (get_bit c1.af CPU.CARRY_BIT))
    let pc1 ← u16add c2.pc 1
    .ok ({ c2 with pc := pc1 }, mmu, 8)
  -- SUB B 1 4 — Z 1 H C, H/C from bc
  else if opcode = 0x90 then do
    let c1 := cpu.set_a (overflowing_sub8 cpu.a cpu.b)
    let c2 := c1.set_flags (some (c1.a == 0)) (some true)
      (some (get_bit c1.bc CPU.UPPER_HALF_BORROW_BIT))
      (some (get_bit c1.bc CPU.UPPER_BORROW_BIT))
    let pc1 ← u16add c2.pc 1
    .ok ({ c2 with pc := pc1 }, mmu, 4)
  -- SUB C 1 4
  else if opcode = 0x91 then do
    let c1 := cpu.set_a (overflowing_sub8 cpu.a cpu.c)
    let c2 := c1.set_flags (some (c1.a == 0)) (some true)
      (some (get_bit c1.bc CPU.LOWER_HALF_BORROW_BIT))
      (some (get_bit c1.bc CPU.LOWER_BORROW_BIT))
    let pc1 ← u16add c2.pc 1
    .ok ({ c2 with pc := pc1 }, mmu, 4)
  -- SUB D 1 4
  else if opcode = 0x92 then do
    let c1 := cpu.set_a (overflowing_sub8 cpu.a cpu.d)
    let c2 := c1.set_flags (some (c1.a == 0)) (some true)
      (some (get_bit c1.de CPU.UPPER_HALF_BORROW_BIT))
      (some (get_bit c1.de CPU.UPPER_BORROW_BIT))
    let pc1 ← u16add c2.pc 1
    .ok ({ c2 with pc := pc1 }, mmu, 4)
  -- SUB E 1 4
  else if opcode = 0x93 then do
    let c1 := cpu.set_a (overflowing_sub8 cpu.a cpu.e)
    let c2 := c1.set_flags (some (c1.a == 0)) (some true)
      (some (get_bit c1.de CPU.LOWER_HALF_BORROW_BIT))
      (some (get_bit c1.de CPU.LOWER_BORROW_BIT))
    let pc1 ← u16add c2.pc 1
    .ok ({ c2 with pc := pc1 }, mmu, 4)
  -- SUB H 1 4
  else if opcode = 0x94 then do
    let c1 := cpu.set_a (overflowing_sub8 cpu.a cpu.h)
    let c2 := c1.set_flags (some (c1.a == 0)) (some true)
      (some (get_bit c1.hl CPU.UPPER_HALF_BORROW_BIT))
      (some (get_bit c1.hl CPU.UPPER_BORROW_BIT))
    let pc1 ← u16add c2.pc 1
    .ok ({ c2 with pc := pc1 }, mmu, 4)
  -- SUB L 1 4
  else if opcode = 0x95 then do
    let c1 := cpu.set_a (overflowing_sub8 cpu.a cpu.l)
    let c2 := c1.set_flags (some (c1.a == 0)) (some true)
      (some (get_bit c1.hl CPU.LOWER_HALF_BORROW_BIT))
      (some (get_bit c1.hl CPU.LOWER_BORROW_BIT))
    let pc1 ← u16add c2.pc 1
    .ok ({ c2 with pc := pc1 }, mmu, 4)
  -- SUB (HL) 1 8 — the source subtracts `self.l()`, not the byte at (HL)
  else if opcode = 0x96 then do
    let c1 := cpu.set_a (overflowing_sub8 cpu.a cpu.l)
    let c2 := c1.set_flags (some (c1.a == 0)) (some true)
      (some (get_bit c1.af CPU.LOWER_HALF_BORROW_BIT))
      (some (get_bit c1.af CPU.LOWER_BORROW_BIT))
    let pc1 ← u16add c2.pc 1
    .ok ({ c2 with pc := pc1 }, mmu, 8)
  -- SUB A 1 4
  else if opcode = 0x97 then do
    let c1 := cpu.set_a (overflowing_sub8 cpu.a cpu.a)
    let c2 := c1.set_flags (some (c1.a == 0)) (some true)
      (some (get_bit c1.af CPU.LOWER_HALF_BORROW_BIT))
      (some (get_bit c1.af CPU.LOWER_BORROW_BIT))
    let pc1 ← u16add c2.pc 1
    .ok ({ c2 with pc := pc1 }, mmu, 4)
  -- SBC A,B 1 4
  else if opcode = 0x98 then do
    let rhs := overflowing_add8 cpu.b (if cpu.c_flag = true then 1 else 0)
    let c1 := cpu.set_a (overflowing_sub8 cpu.a rhs)
    let c2 := c1.set_flags (some (c1.a == 0)) (some true)
      (some (get_bit c1.af CPU.LOWER_HALF_BORROW_BIT))
      (some (get_bit c1.af CPU.LOWER_BORROW_BIT))
    let pc1 ← u16add c2.pc 1
    .ok ({ c2 with pc := pc1 }, mmu, 4)
  -- SBC A,C 1 4
  else if opcode = 0x99 then do
    let rhs := overflowing_add8 cpu.c (if cpu.c_flag = true then 1 else 0)
    let c1 := cpu.set_a (overflowing_sub8 cpu.a rhs)
    let c2 := c1.set_flags (some (c1.a == 0)) (some true)
      (some (get_bit c1.af CPU.LOWER_HALF_BORROW_BIT))
      (some (get_bit c1.af CPU.LOWER_BORROW_BIT))
    let pc1 ← u16add c2.pc 1
    .ok ({ c2 with pc := pc1 }, mmu, 4)
  -- SBC A,D 1 4
  else if opcode = 0x9A then do
    let rhs := overflowing_add8 cpu.d (if cpu.c_flag = true then 1 else 0)
    let c1 := cpu.set_a (overflowing_sub8 cpu.a rhs)
    let c2 := c1.set_flags (some (c1.a == 0)) (some true)
      (some (get_bit c1.af CPU.UPPER_HALF_BORROW_BIT))
      (some (get_bit c1.af CPU.BORROW_BIT))
    let pc1 ← u16add c2.pc 1
    .ok ({ c2 with pc := pc1 }, mmu, 4)
  -- SBC A,E 1 4 — no flag update in the source
  else if opcode = 0x9B then do
    let rhs := overflowing_add8 cpu.e (if cpu.c_flag = true then 1 else 0)
    let c1 := cpu.set_a (overflowing_sub8 cpu.a rhs)
    let pc1 ← u16add c1.pc 1
    .ok ({ c1 with pc := pc1 }, mmu, 4)
  -- SBC A,H 1 4
  else if opcode = 0x9C then do
    let rhs := overflowing_add8 cpu.h (if cpu.c_flag = true then 1 else 0)
    let c1 := cpu.set_a (overflowing_sub8 cpu.a rhs)
    let c2 := c1.set_flags (some (c1.a == 0)) (some true)
      (some (get_bit c1.af CPU.UPPER_HALF_BORROW_BIT))
      (some (get_bit c1.af CPU.BORROW_BIT))
    let pc1 ← u16add c2.pc 1
    .ok ({ c2 with pc := pc1 }, mmu, 4)
  -- SBC A,L 1 4
  else if opcode = 0x9D then do
    let rhs := overflowing_add8 cpu.l (if cpu.c_flag = true then 1 else 0)
    let c1 := cpu.set_a (overflowing_sub8 cpu.a rhs)
    let c2 := c1.set_flags (some (c1.a == 0)) (some true)
      (some (get_bit c1.af CPU.UPPER_HALF_CARRY_BIT))
      (some (get_bit c1.af CPU.CARRY_BIT))
    let pc1 ← u16add c2.pc 1
    .ok ({ c2 with pc := pc1 }, mmu, 4)
  -- XOR C 1 4 — the source stores the result into the C register
  else if opcode = 0xA9 then do
    let c1 := cpu.set_c (cpu.a ^^^ cpu.c)
    let c2 := c1.set_flags (some (c1.a == 0)) (some false) (some false)
      (some false)
    let pc1 ← u16add c2.pc 1
    .ok ({ c2 with pc := pc1 }, mmu, 4)
  -- XOR D 1 4
  else if opcode = 0xAA then do
    let c1 := cpu.set_a (cpu.a ^^^ cpu.d)
    let c2 := c1.set_flags (some (c1.a == 0)) (some false) (some false)
      (some false)
    let pc1 ← u16add c2.pc 1
    .ok ({ c2 with pc := pc1 }, mmu, 4)
  -- XOR E 1 4
  else if opcode = 0xAB then do
    let c1 := cpu.set_a (cpu.a ^^^ cpu.e)
    let c2 := c1.set_flags (some (c1.a == 0)) (some false) (some false)
      (some false)
    let pc1 ← u16add c2.pc 1
    .ok ({ c2 with pc := pc1 }, mmu, 4)
  -- XOR H 1 4
  else if opcode = 0xAC then do
    let c1 := cpu.set_a (cpu.a ^^^ cpu.h)
    let c2 := c1.set_flags (some (c1.a == 0)) (some false) (some false)
      (some false)
    let pc1 ← u16add c2.pc 1
    .ok ({ c2 with pc := pc1 }, mmu, 4)
  -- XOR A 1 4 — Z 0 0 0 per the source comment
  else if opcode = 0xAF then do
    let c1 := cpu.set_a (cpu.a ^^^ cpu.a)
    let c2 := c1.set_flags (some (c1.a == 0)) (some false) (some false)
      (some false)
    let pc1 ← u16add c2.pc 1
    .ok ({ c2 with pc := pc1 }, mmu, 4)
  -- JP a16 3 16
  else if opcode = 0xC3 then do
    let a1 ← u16add cpu.pc 1
    let target ← mmu.read_double a1
    .ok ({ cpu with pc := target }, mmu, 16)
  -- 0xCB-prefixed secondary dispatch
  else if opcode = 0xCB then do
    let a1 ← u16add cpu.pc 1
    let b ← mmu.read a1
    -- BIT 7,H 2 8 — Z 0 1 - ; Z taken from bit 15 of bc in the source
    if b = 0x7C then do
      let c1 := cpu.set_flags (some (get_bit cpu.bc (7 + 8))) (some false)
        (some true) none
      let pc1 ← u16add c1.pc 2
      .ok ({ c1 with pc := pc1 }, mmu, 8)
    else
      .error (.unimplementedCbCommand b)
  -- CALL Z,a16 3 24/12
  else if opcode = 0xCC then do
    if cpu.get_z_flag = true then do
      let m1 ← mmu.write_double cpu.sp cpu.pc
      let sp1 ← u16sub cpu.sp 2
      let a1 ← u16add cpu.pc 1
      let target ← m1.read_double a1
      .ok ({ cpu with sp := sp1, pc := target }, m1, 24)
    else do
      let pc1 ← u16add cpu.pc 3
      .ok ({ cpu with pc := pc1 }, mmu, 12)
  -- ADC A,d8 — body is a bare `unimplemented!()`
  else if opcode = 0xCE then
    .error .unimplementedPlain
  -- LDH (a8),A 2 12
  else if opcode = 0xE0 then do
    let a1 ← u16add cpu.pc 1
    let v ← mmu.read a1
    let target ← u16add 0xFF00 v
    let m1 ← mmu.write target cpu.a
    let pc1 ← u16add cpu.pc 2
    .ok ({ cpu with pc := pc1 }, m1, 12)
  -- LD (C),A 2 8 — the source writes to address `self.c() as u16`
  else if opcode = 0xE2 then do
    let m1 ← mmu.write cpu.c cpu.a
    let pc1 ← u16add cpu.pc 2
    .ok ({ cpu with pc := pc1 }, m1, 8)
  -- PUSH HL 1 16 — write_double at sp, then `self.sp -= 2`
  else if opcode = 0xE5 then do
    let m1 ← mmu.write_double cpu.sp cpu.hl
    let sp1 ← u16sub cpu.sp 2
    let pc1 ← u16add cpu.pc 1
    .ok ({ cpu with sp := sp1, pc := pc1 }, m1, 16)
  -- RST 38H 1 16
  else if opcode = 0xFF then do
    let m1 ← mmu.write_double cpu.sp cpu.pc
    let sp1 ← u16sub cpu.sp 2
    .ok ({ cpu with sp := sp1, pc := 0x38 }, m1, 16)
  -- fallback: `unimplemented!("command not implemented 0x{:x}", b)`
  else
    .error (.unimplementedCommand opcode)

/-- `CPU::step(mmu)`: fetch the opcode byte at `pc` and execute it. -/
def CPU.step (cpu : CPU) (mmu : MMU) : Except RunError (CPU × MMU × Nat) := do
  let opcode ← mmu.read cpu.pc
  cpu.exec opcode mmu

/-- The set of primary opcode bytes that have a dispatch arm in `CPU::exec`
(every other byte reaches the `unimplemented!` fallback). -/
def opcodeDefined (b : Nat) : Bool :=
  [0x00, 0x01, 0x02, 0x03, 0x05, 0x08, 0x0A, 0x0C, 0x0E, 0x11, 0x12, 0x15,
   0x16, 0x18, 0x19, 0x1C, 0x1D, 0x20, 0x21, 0x22, 0x23, 0x25, 0x2C, 0x2D,
   0x2E, 0x2F, 0x31, 0x32, 0x3E, 0x47, 0x48, 0x49, 0x4A, 0x4B, 0x4C, 0x4D,
   0x4E, 0x4F, 0x50, 0x51, 0x52, 0x53, 0x54, 0x55, 0x56, 0x57, 0x58, 0x59,
   0x5A, 0x5B, 0x5C, 0x60, 0x66, 0x6B, 0x6C, 0x6D, 0x6E, 0x6F, 0x71, 0x72,
   0x73, 0x74, 0x75, 0x77, 0x78, 0x79, 0x7A, 0x7E, 0x7F, 0x86, 0x90, 0x91,
   0x92, 0x93, 0x94, 0x95, 0x96, 0x97, 0x98, 0x99, 0x9A, 0x9B, 0x9C, 0x9D,
   0xA9, 0xAA, 0xAB, 0xAC, 0xAF, 0xC3, 0xCB, 0xCC, 0xCE, 0xE0, 0xE2, 0xE5,
   0xFF].contains b

/-- A cartridge whose every ROM byte is `v`. -/
def cartConst (v : Nat) : Cartridge := .RomOnly (fun _ => v)

/-- An MMU with bios bytes all `b` and a cartridge whose bytes are all `c`,
everything else defaulted — the configuration of the repository's own
`bios_disabling_works` test. -/
def mmuBC (b c : Nat) : MMU :=
  { MMU.init with bios := fun _ => b, cartridge := some (cartConst c) }

/-! ## Helper lemmas -/

/-- Bind on a successful `Except` value. -/
lemma bind_ok {α β : Type} (a : α) (f : α → Except RunError β) :
    (Except.ok a : Except RunError α) >>= f = f a := rfl

/-- Sanity check for the unfolding in `MMU.bios_enabled`: `read` at 0xFF50
resolves to `iom[0x50]`. -/
lemma MMU.read_ff50 (m : MMU) : m.read 0xFF50 = .ok (m.iom 0x50) := rfl

/-- A write inside the work-RAM window updates `ram` at the window offset. -/
lemma MMU.write_ram_off (m : MMU) (off v : Nat) (h : off < 0x1000) :
    m.write (0xC000 + off) v =
      .ok { m with ram := fun j => if j = off then v else m.ram j } := by
  unfold MMU.write
  rw [if_neg (fun hc => absurd hc.1 (by omega)), if_neg (by omega), if_neg (by omega),
      if_neg (by omega), if_pos (by omega)]
  unfold arrSet
  simp only [show 0xC000 + off - 0xC000 = off from by omega]
  rw [if_pos h]
  rfl

/-- A write inside the low half of the echo window also updates `ram`. -/
lemma MMU.write_echo_off (m : MMU) (off v : Nat) (h : off < 0x1000) :
    m.write (0xE000 + off) v =
      .ok { m with ram := fun j => if j = off then v else m.ram j } := by
  unfold MMU.write
  rw [if_neg (fun hc => absurd hc.1 (by omega)), if_neg (by omega), if_neg (by omega),
      if_neg (by omega), if_neg (by omega), if_neg (by omega), if_pos (by omega)]
  unfold arrSet
  simp only [show 0xE000 + off - 0xE000 = off from by omega]
  rw [if_pos h]
  rfl

/-- A read inside the work-RAM window returns `ram` at the window offset. -/
lemma MMU.read_ram_off (m : MMU) (off : Nat) (h : off < 0x1000) :
    m.read (0xC000 + off) = .ok (m.ram off) := by
  unfold MMU.read
  rw [if_neg (fun hc => absurd hc.1 (by omega)), if_neg (by omega), if_neg (by omega),
      if_neg (by omega), if_pos (by omega)]
  unfold arrGet
  simp only [show 0xC000 + off - 0xC000 = off from by omega]
  rw [if_pos h]

/-- A read inside the low half of the echo window returns `ram` at the
window offset. -/
lemma MMU.read_echo_off (m : MMU) (off : Nat) (h : off < 0x1000) :
    m.read (0xE000 + off) = .ok (m.ram off) := by
  unfold MMU.read
  rw [if_neg (fun hc => absurd hc.1 (by omega)), if_neg (by omega), if_neg (by omega),
      if_neg (by omega), if_neg (by omega), if_neg (by omega), if_pos (by omega)]
  unfold arrGet
  simp only [show 0xE000 + off - 0xE000 = off from by omega]
  rw [if_pos h]

/-- Checked `u16` addition succeeds below 2^16. -/
lemma u16add_ok (a b : Nat) (h : a + b < 0x10000) : u16add a b = .ok (a + b) := by
  unfold u16add
  rw [if_pos h]

/-- Checked `u16` subtraction succeeds when no underflow. -/
lemma u16sub_ok (a b : Nat) (h : b ≤ a) : u16sub a b = .ok (a - b) := by
  unfold u16sub
  rw [if_pos h]

/-- Unpacking a 16-bit word into bytes and repacking restores the word. -/
lemma pack_unpack_eq (d : Nat) (hd : d < 0x10000) :
    pack_bytes_into_double (unpack_bytes_from_double d).fst
      (unpack_bytes_from_double d).snd = d := by
  unfold pack_bytes_into_double unpack_bytes_from_double
  simp only [Nat.mod_mod, Nat.shiftLeft_eq, Nat.shiftRight_eq_div_pow]
  rw [Nat.mul_comm, ← Nat.mul_add_lt_is_or (i := 8) (by omega)]
  have h256 : (2 : Nat) ^ 8 = 256 := by norm_num
  rw [h256]
  omega

/-- `set_bit` preserves every set bit of its target. -/
lemma set_bit_testBit_mono (t k : Nat) (v : Bool) (i : Nat)
    (hi : t.testBit i = true) : (set_bit t k v).testBit i = true := by
  unfold set_bit
  simp [Nat.testBit_or, hi]

/-- `set_bit` sets bit `k` whatever `v` is — including `v = false`. -/
lemma set_bit_sets (t k : Nat) (v : Bool) : (set_bit t k v).testBit k = true := by
  unfold set_bit
  simp [Nat.testBit_or, Nat.testBit_shiftLeft]

/-- `set_flags` never clears a set bit of `af`, whatever flags it is asked
to write. -/
lemma set_flags_af_mono (cpu : CPU) (z n h c : Option Bool) (i : Nat)
    (hi : cpu.af.testBit i = true) :
    ((cpu.set_flags z n h c).af).testBit i = true := by
  unfold CPU.set_flags CPU.set_z_flag CPU.set_n_flag CPU.set_h_flag CPU.set_c_flag
    CPU.set_f_bit_n
  rcases z with _ | z <;> rcases n with _ | n <;> rcases h with _ | h <;>
    rcases c with _ | c <;> simp [set_bit, Nat.testBit_or, hi]

/-! ## Claim theorems -/

/-- C1: the claim says MMU `read` is total for every address when a cartridge
is present. It is not: the echo arm covers 0xE000..=0xFDFF (0x1E00 addresses)
but indexes the 0x1000-byte `ram` array, so every address in 0xF000..=0xFDFF
reads out of bounds and panics. Evaluated here at the failing input 0xF000
(and at 0xFDFF), with 0xEFFF still in bounds for contrast. -/
theorem C1_mmu_read_echo_window_panics :
    (mmuBC 2 1).read 0xF000 = .error .indexOutOfBounds ∧
    (mmuBC 2 1).read 0xFDFF = .error .indexOutOfBounds ∧
    (mmuBC 2 1).read 0xEFFF = .ok 0 :=
  ⟨rfl, rfl, rfl⟩

/-- C2: the claim says that once a nonzero byte has been written to 0xFF50
the boot overlay can never become active again. The code re-derives
`bios_enabled` from the register on every access, so writing 0x00 back to
0xFF50 re-enables the overlay: after writing 0x01 then 0x00 to 0xFF50,
address 0x0000 is served from the boot image (byte 2) again instead of the
cartridge (byte 1). -/
theorem C2_boot_overlay_reenabled_by_zero_write :
    ((mmuBC 2 1).read 0x0000 = .ok 2) ∧
    (((mmuBC 2 1).write 0xFF50 0x01) >>= (fun m => m.read 0x0000) = .ok 1) ∧
    (((mmuBC 2 1).write 0xFF50 0x01) >>= (fun m =>
      (m.write 0xFF50 0x00) >>= (fun m2 => m2.read 0x0000)) = .ok 2) :=
  ⟨rfl, rfl, rfl⟩

/-- C3: the claim (and the source's own `Z 0 0 0` table comment) says opcode
0xAF clears N, H and C. Because `set_bit` ignores its boolean argument,
`set_flags(Some(true), Some(false), Some(false), Some(false))` sets all four
flag bits: from the all-zero register file, `af` ends as 0xF0 (Z, N, H and C
all true), not 0x80. The accumulator, pc advance and cycle count match the
claim. -/
theorem C3_xor_a_sets_all_flags :
    CPU.exec CPU.init 0xAF MMU.init =
      .ok ({ af := 0xF0, bc := 0, de := 0, hl := 0, sp := 0, pc := 1 },
        MMU.init, 4) ∧
    ({ af := 0xF0, bc := 0, de := 0, hl := 0, sp := 0, pc := 1 } : CPU).get_z_flag
      = true ∧
    ({ af := 0xF0, bc := 0, de := 0, hl := 0, sp := 0, pc := 1 } : CPU).get_n_flag
      = true ∧
    ({ af := 0xF0, bc := 0, de := 0, hl := 0, sp := 0, pc := 1 } : CPU).h_flag
      = true ∧
    ({ af := 0xF0, bc := 0, de := 0, hl := 0, sp := 0, pc := 1 } : CPU).c_flag
      = true :=
  ⟨rfl, rfl, rfl, rfl, rfl⟩

/-- C4: the claim says the cited opcodes wrap modulo 2^16 / 2^8 and never
fail fatally. Opcodes 0x23 (`hl += 1`), 0x32 (`hl -= 1`), 0x1C
(`e() + 1`) and 0x2C (`l() + 1`) use plain checked arithmetic, which aborts
on overflow under the debug profile, unlike 0x03 (INC BC), which uses
`overflowing_add` and does wrap. Evaluated at the boundary inputs named by
the claim. -/
theorem C4_inc_dec_unchecked_overflow :
    CPU.exec { CPU.init with hl := 0xFFFF } 0x23 MMU.init
      = .error .arithmeticOverflow ∧
    CPU.exec CPU.init 0x32 MMU.init = .error .arithmeticOverflow ∧
    CPU.exec { CPU.init with de := 0xFF } 0x1C MMU.init
      = .error .arithmeticOverflow ∧
    CPU.exec { CPU.init with hl := 0xFF } 0x2C MMU.init
      = .error .arithmeticOverflow ∧
    CPU.exec { CPU.init with bc := 0xFFFF } 0x03 MMU.init =
      .ok ({ af := 0, bc := 0, de := 0, hl := 0, sp := 0, pc := 1 },
        MMU.init, 8) :=
  ⟨rfl, rfl, rfl, rfl, rfl⟩

/-- C5 counterexample: the claim says the fatal report of an undefined opcode
names the current pc. Two CPU states that differ only in pc (0 and 5) produce
the very same error value for undefined opcode 0x04, so the report cannot
name the pc: it carries the opcode byte only. -/
theorem C5_error_report_independent_of_pc :
    CPU.exec CPU.init 0x04 MMU.init =
      CPU.exec { CPU.init with pc := 5 } 0x04 MMU.init ∧
    CPU.exec CPU.init 0x04 MMU.init = .error (.unimplementedCommand 0x04) :=
  ⟨Eq.trans
    (show CPU.exec CPU.init 0x04 MMU.init
        = .error (.unimplementedCommand 0x04) from rfl)
    (show CPU.exec { CPU.init with pc := 5 } 0x04 MMU.init
        = .error (.unimplementedCommand 0x04) from rfl).symm,
   rfl⟩

/-- C5 (amended): every primary opcode byte without a dispatch arm fails
fatally with a report naming the offending byte (but not the pc); every
0xCB-prefixed byte other than 0x7C fails fatally naming the secondary byte
(but not the pc); opcode 0xCE is dispatched but fails fatally with a bare
report naming neither. Execution never silently continues. -/
theorem C5_undefined_opcode_fatal_names_byte_only :
    (∀ (b : Nat) (cpu : CPU) (mmu : MMU), b < 0x100 → opcodeDefined b = false →
      cpu.exec b mmu = .error (.unimplementedCommand b)) ∧
    (∀ (cpu : CPU) (mmu : MMU) (b : Nat), cpu.pc + 1 < 0x10000 →
      mmu.read (cpu.pc + 1) = .ok b → b ≠ 0x7C →
      cpu.exec 0xCB mmu = .error (.unimplementedCbCommand b)) ∧
    (∀ (cpu : CPU) (mmu : MMU), cpu.exec 0xCE mmu = .error .unimplementedPlain) := by
  refine ⟨?_, ?_, fun cpu mmu => rfl⟩
  · intro b cpu mmu hb hdef
    interval_cases b <;> first
      | rfl
      | exact absurd hdef (by decide)
  · intro cpu mmu b hpc hread hne
    have hE : cpu.exec 0xCB mmu =
        (u16add cpu.pc 1) >>= (fun a1 =>
          (mmu.read a1) >>= (fun b2 =>
            if b2 = 0x7C then
              (fun c1 =>
                (u16add c1.pc 2) >>= (fun pc1 =>
                  Except.ok ({ c1 with pc := pc1 }, mmu, (8 : Nat))))
                (cpu.set_flags (some (get_bit cpu.bc (7 + 8))) (some false)
                  (some true) none)
            else
              .error (.unimplementedCbCommand b2))) := rfl
    rw [hE, u16add_ok _ _ hpc, bind_ok, hread, bind_ok, if_neg hne]

/-- C5 witness: the amended theorem applied at opcode 0x04 with pc 0, at the
secondary byte 0x00 fetched from the default MMU, and at opcode 0xCE. -/
theorem C5_undefined_opcode_fatal_names_byte_only_witness :
    CPU.exec CPU.init 0x04 MMU.init = .error (.unimplementedCommand 0x04) ∧
    CPU.exec CPU.init 0xCB MMU.init = .error (.unimplementedCbCommand 0) ∧
    CPU.exec CPU.init 0xCE MMU.init = .error .unimplementedPlain :=
  ⟨C5_undefined_opcode_fatal_names_byte_only.1 0x04 CPU.init MMU.init
     (by decide) (by decide),
   C5_undefined_opcode_fatal_names_byte_only.2.1 CPU.init MMU.init 0
     (by decide) rfl (by decide),
   C5_undefined_opcode_fatal_names_byte_only.2.2 CPU.init MMU.init⟩

/-- C6 counterexample: the claim includes the bank-1 portion
(0xD000..=0xDDFF echoed at 0xF000..=0xFDFF). Writing 0xAB at 0xD000 and
reading the echo address 0xF000 does not return 0xAB: the read indexes the
0x1000-byte `ram` array out of bounds and panics, as does a write to 0xF000. -/
theorem C6_bank1_echo_access_panics :
    ((MMU.init.write 0xD000 0xAB) >>= (fun m => m.read 0xF000)
      = .error .indexOutOfBounds) ∧
    MMU.init.write 0xF000 0xAB = .error .indexOutOfBounds :=
  ⟨rfl, rfl⟩

/-- C6 (amended): echo aliasing holds exactly for the bank-0 portion: for
every MMU state, every offset below 0x1000 and every value, a write at
0xC000+off is observable at 0xE000+off and a write at 0xE000+off is
observable at 0xC000+off, because both arms address the same `ram` store. -/
theorem C6_echo_alias_bank0_window (m : MMU) (off v : Nat) (hoff : off < 0x1000) :
    ((m.write (0xC000 + off) v) >>= (fun m2 => m2.read (0xE000 + off)) = .ok v) ∧
    ((m.write (0xE000 + off) v) >>= (fun m2 => m2.read (0xC000 + off)) = .ok v) := by
  constructor
  · rw [MMU.write_ram_off m off v hoff, bind_ok, MMU.read_echo_off _ off hoff]
    refine congrArg Except.ok ?_
    show (if off = off then v else m.ram off) = v
    rw [if_pos rfl]
  · rw [MMU.write_echo_off m off v hoff, bind_ok, MMU.read_ram_off _ off hoff]
    refine congrArg Except.ok ?_
    show (if off = off then v else m.ram off) = v
    rw [if_pos rfl]

/-- C6 witness: the amended theorem applied at the default MMU, offset 5 and
value 7. -/
theorem C6_echo_alias_bank0_window_witness :
    ((MMU.init.write (0xC000 + 5) 7) >>= (fun m2 => m2.read (0xE000 + 5))
      = .ok 7) ∧
    ((MMU.init.write (0xE000 + 5) 7) >>= (fun m2 => m2.read (0xC000 + 5))
      = .ok 7) :=
  C6_echo_alias_bank0_window MMU.init 5 7 (by decide)

/-- C7 counterexample: the claim says the two pushed bytes land at descending
stack addresses (low byte at sp-2, high byte at sp-1). Pushing hl = 0x1234
with sp = 0xFF90 instead leaves sp-1 (0xFF8F) untouched (still 0) and stores
the high byte at sp (0xFF90) and the low byte at sp+1 (0xFF91) — ascending
addresses — while sp still drops to 0xFF8E. -/
theorem C7_push_writes_ascending_addresses :
    (CPU.exec { CPU.init with hl := 0x1234, sp := 0xFF90 } 0xE5 MMU.init).map
      (fun r => (r.1.sp, r.2.2, r.2.1.read 0xFF8F, r.2.1.read 0xFF90,
        r.2.1.read 0xFF91)) =
    .ok (0xFF8E, 16, .ok 0, .ok 0x12, .ok 0x34) :=
  rfl

/-- C7 (amended): PUSH HL stores hl as two sequential single-byte writes at
ascending addresses — the high byte at the pre-push sp and the low byte at
sp+1 — and decrements sp by exactly 2; no pop opcode exists, but the pushed
word is recovered exactly by `read_double` at the pre-push sp, since
`write_double`/`read_double` use the same byte order. Stated for a stack
inside the work-RAM window. -/
theorem C7_push_hl_layout_and_roundtrip (cpu : CPU) (mmu : MMU) (off : Nat)
    (hsp : cpu.sp = 0xC000 + off) (hoff : off + 1 < 0x1000)
    (hhl : cpu.hl < 0x10000) (hpc : cpu.pc + 1 < 0x10000) :
    ∃ m2 : MMU,
      cpu.exec 0xE5 mmu =
        .ok ({ cpu with sp := cpu.sp - 2, pc := cpu.pc + 1 }, m2, 16) ∧
      m2.read cpu.sp = .ok ((cpu.hl >>> 8) % 0x100) ∧
      m2.read (cpu.sp + 1) = .ok (cpu.hl % 0x100) ∧
      m2.read_double cpu.sp = .ok cpu.hl := by
  refine ⟨{ mmu with ram := fun j =>
      (if j = off + 1 then cpu.hl % 0x100
       else if j = off then (cpu.hl >>> 8) % 0x100
       else mmu.ram j) }, ?_, ?_, ?_, ?_⟩
  · have hE : cpu.exec 0xE5 mmu =
        (mmu.write_double cpu.sp cpu.hl) >>= (fun m1 =>
          (u16sub cpu.sp 2) >>= (fun sp1 =>
            (u16add cpu.pc 1) >>= (fun pc1 =>
              Except.ok ({ cpu with sp := sp1, pc := pc1 }, m1, (16 : Nat))))) := rfl
    have hwd : mmu.write_double cpu.sp cpu.hl =
        (mmu.write cpu.sp ((unpack_bytes_from_double cpu.hl).fst)) >>= (fun m1 =>
          (u16add cpu.sp 1) >>= (fun a1 =>
            m1.write a1 ((unpack_bytes_from_double cpu.hl).snd))) := rfl
    rw [hE, hwd, hsp, MMU.write_ram_off mmu off _ (by omega), bind_ok,
        u16add_ok _ _ (by omega), bind_ok,
        show 0xC000 + off + 1 = 0xC000 + (off + 1) from by omega,
        MMU.write_ram_off _ (off + 1) _ (by omega), bind_ok,
        u16sub_ok _ _ (by omega), bind_ok, u16add_ok _ _ (by omega), bind_ok]
    rfl
  · rw [hsp, MMU.read_ram_off _ off (by omega)]
    refine congrArg Except.ok ?_
    show (if off = off + 1 then cpu.hl % 0x100
          else if off = off then (cpu.hl >>> 8) % 0x100
          else mmu.ram off) = (cpu.hl >>> 8) % 0x100
    rw [if_neg (by omega), if_pos rfl]
  · rw [hsp, show 0xC000 + off + 1 = 0xC000 + (off + 1) from by omega,
        MMU.read_ram_off _ (off + 1) (by omega)]
    refine congrArg Except.ok ?_
    show (if off + 1 = off + 1 then cpu.hl % 0x100
          else if off + 1 = off then (cpu.hl >>> 8) % 0x100
          else mmu.ram (off + 1)) = cpu.hl % 0x100
    rw [if_pos rfl]
  · have hrd : ∀ mm : MMU, MMU.read_double mm cpu.sp =
        (MMU.read mm cpu.sp) >>= (fun upper =>
          (u16add cpu.sp 1) >>= (fun a1 =>
            (MMU.read mm a1) >>= (fun lower =>
              Except.ok (pack_bytes_into_double upper lower)))) := fun _ => rfl
    rw [hrd, hsp, MMU.read_ram_off _ off (by omega), bind_ok,
        u16add_ok _ _ (by omega), bind_ok,
        show 0xC000 + off + 1 = 0xC000 + (off + 1) from by omega,
        MMU.read_ram_off _ (off + 1) (by omega), bind_ok]
    refine congrArg Except.ok ?_
    show pack_bytes_into_double
        (if off = off + 1 then cpu.hl % 0x100
         else if off = off then (cpu.hl >>> 8) % 0x100
         else mmu.ram off)
        (if off + 1 = off + 1 then cpu.hl % 0x100
         else if off + 1 = off then (cpu.hl >>> 8) % 0x100
         else mmu.ram (off + 1)) = cpu.hl
    rw [if_neg (by omega), if_pos rfl, if_pos rfl]
    exact pack_unpack_eq cpu.hl hhl

/-- C7 witness: the amended theorem applied to hl = 0x1234 with sp = 0xC100
(offset 0x100 into work RAM). -/
theorem C7_push_hl_layout_and_roundtrip_witness :
    ∃ m2 : MMU,
      CPU.exec { af := 0, bc := 0, de := 0, hl := 0x1234, sp := 0xC100, pc := 0 }
        0xE5 MMU.init =
        .ok ({ af := 0, bc := 0, de := 0, hl := 0x1234, sp := 0xC0FE, pc := 1 },
          m2, 16) ∧
      m2.read 0xC100 = .ok 0x12 ∧
      m2.read 0xC101 = .ok 0x34 ∧
      m2.read_double 0xC100 = .ok 0x1234 :=
  C7_push_hl_layout_and_roundtrip
    { af := 0, bc := 0, de := 0, hl := 0x1234, sp := 0xC100, pc := 0 }
    MMU.init 0x100 rfl (by decide) (by decide) (by decide)

/-- C8: the boot-overlay scenario of the claim, for arbitrary bios byte B,
cartridge byte C and nonzero disable value v: before any write to 0xFF50,
address 0 reads B and address 0x0100 reads C; after writing v to 0xFF50, the
register reads back v and addresses 0 and 0x0100 both read C. -/
theorem C8_boot_overlay_scenario (B C v : Nat) (_hB : B < 0x100)
    (_hC : C < 0x100) (_hBC : B ≠ C) (hv : 0 < v) (_hv2 : v < 0x100) :
    (mmuBC B C).read 0x0000 = .ok B ∧
    (mmuBC B C).read 0x0100 = .ok C ∧
    ∃ m2 : MMU, (mmuBC B C).write 0xFF50 v = .ok m2 ∧
      m2.read 0xFF50 = .ok v ∧
      m2.read 0x0000 = .ok C ∧
      m2.read 0x0100 = .ok C := by
  refine ⟨rfl, rfl, { mmuBC B C with iom := fun j =>
      if j = 0x50 then v else (mmuBC B C).iom j }, rfl, rfl, ?_, rfl⟩
  have hbe : ({ mmuBC B C with iom := fun j =>
      if j = 0x50 then v else (mmuBC B C).iom j } : MMU).bios_enabled = false := by
    have hne : ¬(v = 0) := by omega
    simp [MMU.bios_enabled, hne]
  unfold MMU.read
  rw [if_neg (fun hc => by rw [hbe] at hc; exact Bool.false_ne_true hc.2)]
  rfl

/-- C8 witness: the scenario theorem applied at B = 2, C = 1, v = 1 — the
exact inputs of the repository's own `bios_disabling_works` test. -/
theorem C8_boot_overlay_scenario_witness :
    (mmuBC 2 1).read 0x0000 = .ok 2 ∧
    (mmuBC 2 1).read 0x0100 = .ok 1 ∧
    ∃ m2 : MMU, (mmuBC 2 1).write 0xFF50 1 = .ok m2 ∧
      m2.read 0xFF50 = .ok 1 ∧
      m2.read 0x0000 = .ok 1 ∧
      m2.read 0x0100 = .ok 1 :=
  C8_boot_overlay_scenario 2 1 1 (by decide) (by decide) (by decide)
    (by decide) (by decide)

/-- C9: cartridge construction fails exactly when the image exceeds 0xFFFF
(65535) bytes — reported as `none`, an ordinary value, never a panic — and a
successful construction zero-pads: reading any address below the fixed ROM
size returns the image byte there when the address is inside the image and 0
past it. -/
theorem C9_cartridge_construction (bytes : List Nat) :
    (Cartridge.maybe_from_bytes bytes = none ↔ 0xFFFF < bytes.length) ∧
    (∀ c : Cartridge, Cartridge.maybe_from_bytes bytes = some c →
      ∀ address : Nat, address < 0xFFFF →
        c.read address =
          .ok (if address < bytes.length then bytes.getD address 0 else 0)) := by
  unfold Cartridge.maybe_from_bytes
  by_cases hl : bytes.length ≤ Cartridge.ROM_ONLY_SIZE
  · have hl' : bytes.length ≤ 0xFFFF := hl
    rw [if_pos hl]
    constructor
    · constructor
      · intro hx
        exact absurd hx (by simp)
      · intro hx
        omega
    · intro c hc address haddr
      cases hc
      show arrGet Cartridge.ROM_ONLY_SIZE
        (fun i => if i < bytes.length then bytes.getD i 0 else 0) address =
        Except.ok (if address < bytes.length then bytes.getD address 0 else 0)
      unfold arrGet
      rw [if_pos (show address < Cartridge.ROM_ONLY_SIZE from haddr)]
  · have hl' : ¬(bytes.length ≤ 0xFFFF) := hl
    rw [if_neg hl]
    constructor
    · exact ⟨fun _ => by omega, fun _ => rfl⟩
    · intro c hc
      exact absurd hc (by simp)

/-- C9 witness: the construction theorem applied to the two-byte image
[7, 8], evaluated at addresses 1 (inside the image) and 5 (past it). -/
theorem C9_cartridge_construction_witness :
    (Cartridge.maybe_from_bytes [7, 8] = none ↔
      0xFFFF < ([7, 8] : List Nat).length) ∧
    (∀ c : Cartridge, Cartridge.maybe_from_bytes [7, 8] = some c →
      c.read 1 = .ok 8 ∧ c.read 5 = .ok 0) := by
  refine ⟨(C9_cartridge_construction [7, 8]).1, fun c hc => ⟨?_, ?_⟩⟩
  · have h := (C9_cartridge_construction [7, 8]).2 c hc 1 (by decide)
    simpa using h
  · have h := (C9_cartridge_construction [7, 8]).2 c hc 5 (by decide)
    simpa using h

/-- C10: `set_bit(t, n, v)` equals `t | (1 << n)` for both boolean values —
it ignores `v` entirely — so `set_bit(t, n, false)` still sets bit `n`, and a
`set_flags` call can only ever set flag bits of `af`, never clear one,
whatever combination of flag requests it receives. -/
theorem C10_set_bit_ignores_value_never_clears (t k : Nat) (v v' : Bool)
    (_hk : k < 16) (cpu : CPU) (z n h c : Option Bool) (i : Nat) :
    set_bit t k v = t ||| (1 <<< k) ∧
    set_bit t k v = set_bit t k v' ∧
    (set_bit t k false).testBit k = true ∧
    (cpu.af.testBit i = true → ((cpu.set_flags z n h c).af).testBit i = true) :=
  ⟨rfl, rfl, set_bit_sets t k false,
   fun hi => set_flags_af_mono cpu z n h c i hi⟩

/-- C10 witness: applied at t = 0x90 (bit 4 set, bit 7 set), k = 4, and a
CPU whose Z flag (bit 7 of af) is set, asking `set_flags` to write Z false —
the bit stays set. -/
theorem C10_set_bit_ignores_value_never_clears_witness :
    set_bit 0x90 4 true = 0x90 ||| (1 <<< 4) ∧
    set_bit 0x90 4 true = set_bit 0x90 4 false ∧
    (set_bit 0x90 4 false).testBit 4 = true ∧
    ((({ af := 0x80, bc := 0, de := 0, hl := 0, sp := 0, pc := 0 } : CPU).set_flags
      (some false) none none none).af).testBit 7 = true := by
  have h := C10_set_bit_ignores_value_never_clears 0x90 4 true false (by decide)
    { af := 0x80, bc := 0, de := 0, hl := 0, sp := 0, pc := 0 }
    (some false) none none none 7
  exact ⟨h.1, h.2.1, h.2.2.1, h.2.2.2 (by decide)⟩

end Gameboy
